import Mathlib

/-!
Verification of the generals-bots core engine (src/generals/core) against its
natural-language specification.  The Python source is shallowly embedded:
float unit counts become exact rationals, numpy arrays become functions from
grid positions, raising code paths become `Option` (with `none` modelling an
uncaught Python exception), and the per-agent mutation loop of `Game.step`
becomes an explicit fold threading the channel state.
-/

namespace Generals

/-- The four unit types, in the order of `UNIT_TYPES` in channels.py. -/
inductive UType where
  | cavalry
  | infantry
  | archers
  | siege
deriving DecidableEq

/-- The `UNIT_TYPES` list from channels.py
(`["cavalry", "infantry", "archers", "siege"]`). -/
def UNIT_TYPES : List UType := [.cavalry, .infantry, .archers, .siege]

/-- The `COMBAT_EFFECTIVENESS[attacker_type][defender_type]` matrix from
channels.py, with the float literals read as exact rationals. -/
def COMBAT_EFFECTIVENESS : UType → UType → ℚ
  | .cavalry, .cavalry => 1.0
  | .cavalry, .infantry => 0.75
  | .cavalry, .archers => 1.25
  | .cavalry, .siege => 1.5
  | .infantry, .cavalry => 1.25
  | .infantry, .infantry => 1.0
  | .infantry, .archers => 0.75
  | .infantry, .siege => 1.0
  | .archers, .cavalry => 1.5
  | .archers, .infantry => 0.75
  | .archers, .archers => 1.0
  | .archers, .siege => 1.25
  | .siege, .cavalry => 0.5
  | .siege, .infantry => 0.75
  | .siege, .archers => 0.75
  | .siege, .siege => 1.0

/-- A per-cell unit composition: the four unit-count dictionary values
(`{"cavalry": ..., "infantry": ..., "archers": ..., "siege": ...}`) used by
`Game.resolve_combat` in game.py. -/
structure Units where
  cavalry : ℚ
  infantry : ℚ
  archers : ℚ
  siege : ℚ
deriving DecidableEq

/-- Total unit count of a composition (`sum(units.values())` in game.py). -/
def Units.total (u : Units) : ℚ :=
  u.cavalry + u.infantry + u.archers + u.siege

/-- Uniform scaling of every unit-type count
(`unit_count * remaining_percentage` applied to each dictionary entry). -/
def Units.scale (u : Units) (r : ℚ) : Units :=
  ⟨u.cavalry * r, u.infantry * r, u.archers * r, u.siege * r⟩

/-- All four counts are non-negative (true of every composition the game
produces; it makes the rational division in combat meaningful). -/
def Units.Nonneg (u : Units) : Prop :=
  0 ≤ u.cavalry ∧ 0 ≤ u.infantry ∧ 0 ≤ u.archers ∧ 0 ≤ u.siege

/-- The inner loop of the power computation in `Game.resolve_combat`
(game.py lines 89-94): the `unit_contribution` of one unit type `t` of a side
against the full composition `other` of the other side. -/
def contribution (t : UType) (other : Units) : ℚ :=
  COMBAT_EFFECTIVENESS t .cavalry * other.cavalry
    + COMBAT_EFFECTIVENESS t .infantry * other.infantry
    + COMBAT_EFFECTIVENESS t .archers * other.archers
    + COMBAT_EFFECTIVENESS t .siege * other.siege

/-- Combat power of `side` against `other`, as computed by the double loop
in `Game.resolve_combat` (game.py lines 87-102):
`power = Σ_t side[t] * Σ_u E[t][u] * other[u]`. -/
def power (side other : Units) : ℚ :=
  side.cavalry * contribution .cavalry other
    + side.infantry * contribution .infantry other
    + side.archers * contribution .archers other
    + side.siege * contribution .siege other

/-- The pure core of `Game.resolve_combat` (game.py lines 87-144).  The
source method reads the four unit arrays at `attacker_pos` / `defender_pos`
into the `attacker_units` / `defender_units` dictionaries and then runs
exactly this computation on them; the embedding of `Game.step` supplies
those channel reads at the call site.  Returns
`(winner_agent, remaining_units)`. -/
def resolve_combat (attacking defending : String) (attacker defender : Units) :
    String × Units :=
  let attacker_power := power attacker defender
  let defender_power := power defender attacker
  if attacker.total = 0 then (defending, defender)
  else if defender.total = 0 then (attacking, attacker)
  else if attacker_power > defender_power then
    let loss := defender_power / attacker_power
    (attacking, attacker.scale (max 0.1 (1 - loss * 0.8)))
  else
    let loss := attacker_power / defender_power
    (defending, defender.scale (max 0.1 (1 - loss * 0.5)))

/-- C6: for non-negative compositions with nonzero totals, combat declares
the attacker the winner iff its power strictly exceeds the defender's (ties
favour the defender), and scales the winner's composition uniformly by
`max(0.10, 1 - lossRatio * 0.8)` for an attacker win or
`max(0.10, 1 - lossRatio * 0.5)` for a defender win, where
`lossRatio = min(attackerPower, defenderPower) / max(attackerPower, defenderPower)`. -/
theorem resolve_combat_general (x y : String) (A D : Units)
    (hA : A.Nonneg) (hD : D.Nonneg)
    (hAt : A.total ≠ 0) (hDt : D.total ≠ 0) :
    resolve_combat x y A D =
      if power A D > power D A then
        (x, A.scale (max 0.1
          (1 - min (power A D) (power D A) / max (power A D) (power D A) * 0.8)))
      else
        (y, D.scale (max 0.1
          (1 - min (power A D) (power D A) / max (power A D) (power D A) * 0.5))) := by
  unfold resolve_combat
  rw [if_neg hAt, if_neg hDt]
  by_cases h : power A D > power D A
  · rw [if_pos h, if_pos h, min_eq_right (le_of_lt h), max_eq_left (le_of_lt h)]
  · rw [if_neg h, if_neg h, min_eq_left (not_lt.mp h), max_eq_right (not_lt.mp h)]

/-- Witness for C6: `resolveCombat({cavalry:10}, {archers:10})` has attacker
power 125 and defender power 150, hence a defender win with remaining
archers `10 * (1 - (125/150) * 0.5) = 35/6 = 5.8333...`. -/
theorem resolve_combat_general_witness :
    (Units.Nonneg ⟨10, 0, 0, 0⟩ ∧ Units.Nonneg ⟨0, 0, 10, 0⟩ ∧
      Units.total ⟨10, 0, 0, 0⟩ ≠ 0 ∧ Units.total ⟨0, 0, 10, 0⟩ ≠ 0) ∧
    power ⟨10, 0, 0, 0⟩ ⟨0, 0, 10, 0⟩ = 125 ∧
    power ⟨0, 0, 10, 0⟩ ⟨10, 0, 0, 0⟩ = 150 ∧
    resolve_combat "att" "dfd" ⟨10, 0, 0, 0⟩ ⟨0, 0, 10, 0⟩ = ("dfd", ⟨0, 0, 35/6, 0⟩) ∧
    (35 : ℚ) / 6 = 10 * (1 - 125 / 150 * 0.5) ∧
    resolve_combat "att" "dfd" ⟨10, 0, 0, 0⟩ ⟨0, 0, 10, 0⟩ =
      (if power ⟨10, 0, 0, 0⟩ ⟨0, 0, 10, 0⟩ > power ⟨0, 0, 10, 0⟩ ⟨10, 0, 0, 0⟩ then
        ("att", Units.scale ⟨10, 0, 0, 0⟩ (max 0.1
          (1 - min (power ⟨10, 0, 0, 0⟩ ⟨0, 0, 10, 0⟩) (power ⟨0, 0, 10, 0⟩ ⟨10, 0, 0, 0⟩)
            / max (power ⟨10, 0, 0, 0⟩ ⟨0, 0, 10, 0⟩) (power ⟨0, 0, 10, 0⟩ ⟨10, 0, 0, 0⟩) * 0.8)))
      else
        ("dfd", Units.scale ⟨0, 0, 10, 0⟩ (max 0.1
          (1 - min (power ⟨10, 0, 0, 0⟩ ⟨0, 0, 10, 0⟩) (power ⟨0, 0, 10, 0⟩ ⟨10, 0, 0, 0⟩)
            / max (power ⟨10, 0, 0, 0⟩ ⟨0, 0, 10, 0⟩) (power ⟨0, 0, 10, 0⟩ ⟨10, 0, 0, 0⟩) * 0.5)))) :=
  ⟨⟨by norm_num [Units.Nonneg], by norm_num [Units.Nonneg],
      by norm_num [Units.total], by norm_num [Units.total]⟩,
    by norm_num [power, contribution, COMBAT_EFFECTIVENESS],
    by norm_num [power, contribution, COMBAT_EFFECTIVENESS],
    by norm_num [resolve_combat, power, contribution, COMBAT_EFFECTIVENESS,
      Units.total, Units.scale, min_def, max_def],
    by norm_num,
    resolve_combat_general "att" "dfd" ⟨10, 0, 0, 0⟩ ⟨0, 0, 10, 0⟩
      (by norm_num [Units.Nonneg]) (by norm_num [Units.Nonneg])
      (by norm_num [Units.total]) (by norm_num [Units.total])⟩

/-- C8: if exactly one side's total unit count is zero, the non-empty side
wins outright with its composition unchanged (game.py lines 108-112). -/
theorem resolve_combat_zero_force (x y : String) (A D : Units) :
    (A.total = 0 → D.total ≠ 0 → resolve_combat x y A D = (y, D)) ∧
    (D.total = 0 → A.total ≠ 0 → resolve_combat x y A D = (x, A)) := by
  constructor
  · intro hA _
    unfold resolve_combat
    rw [if_pos hA]
  · intro hD hA
    unfold resolve_combat
    rw [if_neg hA, if_pos hD]

/-- Witness for C8: `resolveCombat({}, {infantry:5})` gives a defender win
with `{infantry:5}` unchanged, and `resolveCombat({cavalry:3}, {})` gives an
attacker win with `{cavalry:3}` unchanged. -/
theorem resolve_combat_zero_force_witness :
    (Units.total ⟨0, 0, 0, 0⟩ = 0 ∧ Units.total ⟨0, 5, 0, 0⟩ ≠ 0 ∧
      resolve_combat "att" "dfd" ⟨0, 0, 0, 0⟩ ⟨0, 5, 0, 0⟩ = ("dfd", ⟨0, 5, 0, 0⟩)) ∧
    (Units.total ⟨0, 0, 0, 0⟩ = 0 ∧ Units.total ⟨3, 0, 0, 0⟩ ≠ 0 ∧
      resolve_combat "atx" "dfx" ⟨3, 0, 0, 0⟩ ⟨0, 0, 0, 0⟩ = ("atx", ⟨3, 0, 0, 0⟩)) :=
  ⟨⟨by norm_num [Units.total], by norm_num [Units.total],
      (resolve_combat_zero_force "att" "dfd" ⟨0, 0, 0, 0⟩ ⟨0, 5, 0, 0⟩).1
        (by norm_num [Units.total]) (by norm_num [Units.total])⟩,
    ⟨by norm_num [Units.total], by norm_num [Units.total],
      (resolve_combat_zero_force "atx" "dfx" ⟨3, 0, 0, 0⟩ ⟨0, 0, 0, 0⟩).2
        (by norm_num [Units.total]) (by norm_num [Units.total])⟩⟩

/-- A grid position `(row, col)`. -/
abbrev Pos := Nat × Nat

/-- Boundary handling of `scipy.ndimage.maximum_filter(channel, size=3)` as
called by `Channels.get_visibility` (channels.py line 95): the default
`reflect` mode maps the out-of-window index `-1` back to `0` and the index
`n` back to `n - 1`; only offsets of magnitude 1 arise for a size-3 window. -/
def refl3 (n : Nat) (i : Int) : Nat :=
  if i < 0 then 0 else if i < n then i.toNat else n - 1

/-- Embedding of `Channels.get_visibility` (channels.py lines 93-95): the 3x3 maximum
filter of the agent's boolean ownership mask on an `H x W` grid. -/
def get_visibility (H W : Nat) (own : Pos → Bool) (p : Pos) : Bool :=
  ([-1, 0, 1] : List Int).any fun di =>
    ([-1, 0, 1] : List Int).any fun dj =>
      own (refl3 H ((p.1 : Int) + di), refl3 W ((p.2 : Int) + dj))

/-- The reflected index stays in bounds. -/
theorem refl3_lt (n : Nat) (hn : 0 < n) (x : Int) : refl3 n x < n := by
  unfold refl3
  split_ifs with h1 h2
  · exact hn
  · omega
  · omega

/-- A single owned cell at `(5,5)`, as in the visibility-dilation example. -/
def own55 : Pos → Bool := fun p => decide (p = (5, 5))

/-- A single owned cell at the corner `(0,0)`, as in the visibility-dilation
example. -/
def own00 : Pos → Bool := fun p => decide (p = (0, 0))

/-- C7: for every in-bounds cell, the visibility mask is the ownership mask
dilated by one cell in all 8 directions intersected with grid bounds; a
single owned cell at `(5,5)` on a 10x10 board yields exactly the 3x3 block
rows 4..6, cols 4..6, and an owned corner cell `(0,0)` yields exactly the 4
in-bounds cells of its 3x3 block. -/
theorem get_visibility_spec :
    (∀ (H W : Nat) (own : Pos → Bool) (i j : Nat), i < H → j < W →
      (get_visibility H W own (i, j) = true ↔
        ∃ a b : Nat, a < H ∧ b < W ∧ ((i : Int) - a).natAbs ≤ 1 ∧
          ((j : Int) - b).natAbs ≤ 1 ∧ own (a, b) = true)) ∧
    (∀ i j : Fin 10,
      get_visibility 10 10 own55 (i.1, j.1) = ((4 ≤ i.1 && i.1 ≤ 6) && (4 ≤ j.1 && j.1 ≤ 6))) ∧
    (∀ i j : Fin 10,
      get_visibility 10 10 own00 (i.1, j.1) = (i.1 ≤ 1 && j.1 ≤ 1)) := by
  refine ⟨?_, by decide, by decide⟩
  intro H W own i j hi hj
  unfold get_visibility
  simp only [List.any_eq_true, List.mem_cons, List.not_mem_nil, or_false]
  constructor
  · rintro ⟨di, hdi, dj, hdj, hown⟩
    refine ⟨refl3 H ((i : Int) + di), refl3 W ((j : Int) + dj),
      refl3_lt H (by omega) _, refl3_lt W (by omega) _, ?_, ?_, hown⟩
    · unfold refl3
      rcases hdi with h | h | h <;> subst h <;> split_ifs <;> omega
    · unfold refl3
      rcases hdj with h | h | h <;> subst h <;> split_ifs <;> omega
  · rintro ⟨a, b, ha, hb, hia, hjb, hown⟩
    refine ⟨(a : Int) - i, ?_, (b : Int) - j, ?_, ?_⟩
    · omega
    · omega
    · have h1 : refl3 H ((i : Int) + ((a : Int) - i)) = a := by
        unfold refl3
        split_ifs <;> omega
      have h2 : refl3 W ((j : Int) + ((b : Int) - j)) = b := by
        unfold refl3
        split_ifs <;> omega
      rw [h1, h2]
      exact hown

/-- Witness for C7: instantiating the dilation characterisation on the
`(5,5)` example board at cell `(4,4)`, which is visible because the owned
cell `(5,5)` is an in-bounds Chebyshev-distance-1 neighbour. -/
theorem get_visibility_spec_witness :
    get_visibility 10 10 own55 (4, 4) = true :=
  (get_visibility_spec.1 10 10 own55 4 4 (by norm_num) (by norm_num)).mpr
    ⟨5, 5, by norm_num, by norm_num, by decide, by decide, by decide⟩

/-- A composition with the same count for every unit type, as built for a
fogged defender cell in `predict_combat_outcome` (comabat_utils.py lines
50-57). -/
def Units.uniform (q : ℚ) : Units := ⟨q, q, q, q⟩

/-- Numpy floating-point scalar values, as far as the estimator needs
them: finite values are exact rationals, plus the special values NaN and
the signed infinities.  The Observation fields are numpy `float16` arrays
(built in `Game.agent_observation` from the `Channels` arrays), so the
power accumulators in `predict_combat_outcome` are numpy scalars, and
numpy scalar division by zero yields NaN or a signed infinity with a
`RuntimeWarning` under the default error state — it does not raise. -/
inductive NpVal where
  | num (q : ℚ)
  | nan
  | inf
  | ninf
deriving DecidableEq

/-- Numpy scalar division of finite operands (the line
`strength_ratio = attacker_power / defender_power`, comabat_utils.py line
73): a zero denominator yields NaN for a zero numerator and a signed
infinity otherwise — no exception. -/
def npDiv0 (a b : ℚ) : NpVal :=
  if b ≠ 0 then .num (a / b)
  else if a = 0 then .nan
  else if 0 < a then .inf
  else .ninf

/-- IEEE subtraction on the values the estimator can produce: NaN
propagates, same-signed infinities cancel to NaN. -/
def npSub : NpVal → NpVal → NpVal
  | .nan, _ => .nan
  | _, .nan => .nan
  | .num a, .num b => .num (a - b)
  | .num _, .inf => .ninf
  | .num _, .ninf => .inf
  | .inf, .num _ => .inf
  | .inf, .inf => .nan
  | .inf, .ninf => .inf
  | .ninf, .num _ => .ninf
  | .ninf, .inf => .ninf
  | .ninf, .ninf => .nan

/-- IEEE multiplication on the values the estimator can produce: NaN
propagates, infinity times zero is NaN, otherwise signs multiply. -/
def npMul : NpVal → NpVal → NpVal
  | .nan, _ => .nan
  | _, .nan => .nan
  | .num a, .num b => .num (a * b)
  | .num a, .inf => if a = 0 then .nan else if 0 < a then .inf else .ninf
  | .num a, .ninf => if a = 0 then .nan else if 0 < a then .ninf else .inf
  | .inf, .num b => if b = 0 then .nan else if 0 < b then .inf else .ninf
  | .inf, .inf => .inf
  | .inf, .ninf => .ninf
  | .ninf, .num b => if b = 0 then .nan else if 0 < b then .ninf else .inf
  | .ninf, .inf => .ninf
  | .ninf, .ninf => .inf

/-- IEEE strict less-than: every comparison involving NaN is false. -/
def npLt : NpVal → NpVal → Bool
  | .nan, _ => false
  | _, .nan => false
  | .num a, .num b => decide (a < b)
  | .num _, .inf => true
  | .num _, .ninf => false
  | .inf, _ => false
  | .ninf, .ninf => false
  | .ninf, _ => true

/-- Builtin Python `min(a, b)`: returns `b` only when `b < a`, so a NaN
second argument is never selected and the first argument is returned. -/
def pymin (a b : NpVal) : NpVal := if npLt b a then b else a

/-- Builtin Python `max(a, b)`: returns `b` only when `b > a`, so a NaN
second argument is never selected and the first argument is returned. -/
def pymax (a b : NpVal) : NpVal := if npLt a b then b else a

/-- Embedding of `calculate_expected_loss_ratio` (comabat_utils.py lines
82-97) on numpy scalar inputs:
`max(0.2, min(0.8, 1 - (strength_ratio - 1.0) * 0.2))`.  For a NaN
strength ratio both comparisons are false, so the Python `min` and `max`
fall back to their first arguments and the function returns `0.8`. -/
def calculate_expected_loss_ratio (s : NpVal) : NpVal :=
  pymax (.num 0.2)
    (pymin (.num 0.8) (npSub (.num 1) (npMul (npSub s (.num 1)) (.num 0.2))))

/-- Embedding of `predict_combat_outcome` (comabat_utils.py lines 14-79),
taking the observation reads at the two positions as cell-local inputs:
`fog` is `observation.fog_cells[defender_pos]`, `cellUnits` the four
per-type counts there, `armiesTotal` the value
`observation.armies[defender_pos]`.  The defender composition is the
visible cell composition, or a uniform quarter split of the total in fog.
The two power accumulations are finite, so they are computed in ℚ; the
unguarded division producing `strength_ratio` is numpy scalar division
(`npDiv0`), which on a zero denominator returns NaN or infinity instead of
raising.  The first component of the returned pair is the strength ratio:
the win probability the source returns,
`strength_ratio**2.85 / (strength_ratio**2.85 + 1)`, is a strictly
increasing real function of a finite positive ratio and — since numpy `**`
and `/` propagate NaN — is NaN exactly when the returned ratio is NaN, so
it is not representable in ℚ for finite ratios but is determined by the
returned value in the NaN case. -/
def predict_combat_outcome (fog : Bool) (cellUnits : Units) (armiesTotal : ℚ)
    (attackingType : UType) (attackingCount : ℚ) : NpVal × NpVal :=
  let defender_units : Units :=
    if fog = false then cellUnits else Units.uniform (armiesTotal / 4)
  let attacker_power :=
    attackingCount * COMBAT_EFFECTIVENESS attackingType .cavalry * defender_units.cavalry
    + attackingCount * COMBAT_EFFECTIVENESS attackingType .infantry * defender_units.infantry
    + attackingCount * COMBAT_EFFECTIVENESS attackingType .archers * defender_units.archers
    + attackingCount * COMBAT_EFFECTIVENESS attackingType .siege * defender_units.siege
  let defender_power :=
    defender_units.cavalry * COMBAT_EFFECTIVENESS .cavalry attackingType * attackingCount
    + defender_units.infantry * COMBAT_EFFECTIVENESS .infantry attackingType * attackingCount
    + defender_units.archers * COMBAT_EFFECTIVENESS .archers attackingType * attackingCount
    + defender_units.siege * COMBAT_EFFECTIVENESS .siege attackingType * attackingCount
  let strength := npDiv0 attacker_power defender_power
  (strength, calculate_expected_loss_ratio strength)

/-- C10 (amended): whenever the defender composition used by the estimator
is non-negative and sums to zero (for example a visible cell with no
units), both combat powers are zero and `predict_combat_outcome` performs
an unguarded `0 / 0` numpy division: it does not raise but returns a NaN
strength ratio — hence a NaN win probability, not a value in (0,1) — and
an expected loss ratio of 0.8. -/
theorem predict_combat_outcome_nan (fog : Bool) (cellUnits : Units)
    (armiesTotal : ℚ) (t : UType) (c : ℚ)
    (hnn : (if fog = false then cellUnits else Units.uniform (armiesTotal / 4)).Nonneg)
    (hz : (if fog = false then cellUnits else Units.uniform (armiesTotal / 4)).total = 0) :
    predict_combat_outcome fog cellUnits armiesTotal t c = (NpVal.nan, NpVal.num 0.8) := by
  set d := if fog = false then cellUnits else Units.uniform (armiesTotal / 4) with hd
  obtain ⟨h1, h2, h3, h4⟩ := hnn
  have htot : d.cavalry + d.infantry + d.archers + d.siege = 0 := hz
  have hc : d.cavalry = 0 := by linarith
  have hi : d.infantry = 0 := by linarith
  have ha : d.archers = 0 := by linarith
  have hs : d.siege = 0 := by linarith
  simp only [predict_combat_outcome, ← hd, hc, hi, ha, hs]
  norm_num [npDiv0, calculate_expected_loss_ratio, pymin, pymax, npSub, npMul, npLt]

/-- Witness for C10 (amended): a fogged defender cell with a zero visible
army total makes the estimator return the NaN ratio and 0.8 loss ratio. -/
theorem predict_combat_outcome_nan_witness :
    ((if (true : Bool) = false then (⟨1, 2, 3, 4⟩ : Units) else Units.uniform (0 / 4)).Nonneg ∧
      (if (true : Bool) = false then (⟨1, 2, 3, 4⟩ : Units) else Units.uniform (0 / 4)).total = 0) ∧
    predict_combat_outcome true ⟨1, 2, 3, 4⟩ 0 .infantry 9 = (NpVal.nan, NpVal.num 0.8) :=
  ⟨⟨by norm_num [Units.Nonneg, Units.uniform], by norm_num [Units.total, Units.uniform]⟩,
    predict_combat_outcome_nan true ⟨1, 2, 3, 4⟩ 0 .infantry 9
      (by norm_num [Units.Nonneg, Units.uniform])
      (by norm_num [Units.total, Units.uniform])⟩

/-- Counterexample for C10 as stated: at a visible, empty defender cell
the estimator does not raise — the numpy `0 / 0` division yields NaN (with
a `RuntimeWarning`), and the function returns the pair `(NaN, 0.8)`.  The
claim asserted the call raises. -/
theorem predict_combat_outcome_returns :
    Units.Nonneg ⟨0, 0, 0, 0⟩ ∧ Units.total ⟨0, 0, 0, 0⟩ = 0 ∧
    predict_combat_outcome false ⟨0, 0, 0, 0⟩ 7 .cavalry 5 = (NpVal.nan, NpVal.num 0.8) ∧
    (predict_combat_outcome false ⟨0, 0, 0, 0⟩ 7 .cavalry 5).1 = NpVal.nan :=
  ⟨by norm_num [Units.Nonneg], by norm_num [Units.total],
    by norm_num [predict_combat_outcome, npDiv0, calculate_expected_loss_ratio,
      pymin, pymax, npSub, npMul, npLt],
    by norm_num [predict_combat_outcome, npDiv0]⟩

/-- The per-cell channel state of channels.py: one rational array per unit
type, the static structure masks, and the boolean ownership mask dictionary
keyed by `"neutral"` and the agent ids. -/
structure Channels where
  cavalry : Pos → ℚ
  infantry : Pos → ℚ
  archers : Pos → ℚ
  siege : Pos → ℚ
  generals : Pos → Bool
  mountains : Pos → Bool
  cities : Pos → Bool
  passable : Pos → Bool
  ownership : String → Pos → Bool

/-- Point update of a rational array. -/
def setAt (f : Pos → ℚ) (p : Pos) (v : ℚ) : Pos → ℚ :=
  fun q => if q = p then v else f q

/-- Read of the unit array selected by the `if/elif` chain on `unit_type`
in `Game.step` (game.py lines 182-189). -/
def unitGet (ch : Channels) (t : UType) (p : Pos) : ℚ :=
  match t with
  | .cavalry => ch.cavalry p
  | .infantry => ch.infantry p
  | .archers => ch.archers p
  | .siege => ch.siege p

/-- Write to the unit array selected by `unit_type`. -/
def unitSet (ch : Channels) (t : UType) (p : Pos) (v : ℚ) : Channels :=
  match t with
  | .cavalry => { ch with cavalry := setAt ch.cavalry p v }
  | .infantry => { ch with infantry := setAt ch.infantry p v }
  | .archers => { ch with archers := setAt ch.archers p v }
  | .siege => { ch with siege := setAt ch.siege p v }

/-- The four per-type counts at a position, as read into the unit
dictionaries of `Game.resolve_combat` (game.py lines 76-85). -/
def unitsAt (ch : Channels) (p : Pos) : Units :=
  ⟨ch.cavalry p, ch.infantry p, ch.archers p, ch.siege p⟩

/-- Overwrite all four per-type counts at a position, as done when staging
the attacking force, restoring the target cell, and writing back the
remaining units (game.py lines 251-254, 260-263, 273-276, 286-289). -/
def writeUnits (ch : Channels) (p : Pos) (u : Units) : Channels :=
  { ch with
    cavalry := setAt ch.cavalry p u.cavalry
    infantry := setAt ch.infantry p u.infantry
    archers := setAt ch.archers p u.archers
    siege := setAt ch.siege p u.siege }

/-- The one-unit-type composition `army_to_move if unit_type == t else 0`
staged at the target (game.py lines 251-254). -/
def singleUnits (t : UType) (m : ℚ) : Units :=
  ⟨if t = .cavalry then m else 0, if t = .infantry then m else 0,
    if t = .archers then m else 0, if t = .siege then m else 0⟩

/-- Point update of one agent's ownership mask. -/
def ownSet (ch : Channels) (a : String) (p : Pos) (v : Bool) : Channels :=
  { ch with
    ownership := fun b => if b = a then (fun q => if q = p then v else ch.ownership b q)
      else ch.ownership b }

/-- Python list indexing `l[i]`: negative indices count from the end, and
an index out of the range `-len(l) .. len(l)-1` raises `IndexError`
(modelled as `none`).  This is the semantics of `UNIT_TYPES[unit_type_idx]`
and `DIRECTIONS[direction]` in `Game.step`. -/
def pyListGet (l : List α) (i : Int) : Option α :=
  if 0 ≤ i then l.get? i.toNat
  else if (-i).toNat ≤ l.length then l.get? (l.length - (-i).toNat)
  else none

/-- Numpy axis indexing `arr[i]` on an axis of length `n`: indices in
`0 .. n-1` are taken as-is, indices in `-n .. -1` wrap around, and anything
else raises `IndexError` (modelled as `none`).  This is the semantics of
the `unit_array[si, sj]` reads in `Game.step`. -/
def npIdx (n : Nat) (i : Int) : Option Nat :=
  if 0 ≤ i ∧ i < n then some i.toNat
  else if -(n : Int) ≤ i ∧ i < 0 then some (n - (-i).toNat)
  else none

/-- The `DIRECTIONS` list from config.py:
`[UP, DOWN, LEFT, RIGHT] = [(-1,0), (1,0), (0,-1), (0,1)]`. -/
def DIRECTIONS : List (Int × Int) := [(-1, 0), (1, 0), (0, -1), (0, 1)]

/-- One agent's action tuple as unpacked in `Game.step` (game.py line 176):
`pass_turn, si, sj, direction, unit_type_idx, split_army`. -/
structure Action where
  pass_turn : Nat
  si : Int
  sj : Int
  direction : Int
  unit_type_idx : Int
  split_army : Nat

/-- The `np.argmax` over `[ownership[a][d] for a in ["neutral"] + agents]`
(game.py lines 225-228): the first owner whose mask is true at the target,
defaulting to index 0 (`"neutral"`) when all are false. -/
def targetOwner (ch : Channels) (agents : List String) (d : Pos) : String :=
  match ("neutral" :: agents).find? (fun a => ch.ownership a d) with
  | some a => a
  | none => "neutral"

/-- The body of the per-agent loop of `Game.step` (game.py lines 176-289),
threading the mutable pieces it touches: the channels and the
winner / loser fields.  `none` models an uncaught Python exception. -/
def applyMove (dims : Pos) (agents : List String) (gp : String → Pos)
    (st : Channels × Option String × Option String) (agent : String) (a : Action) :
    Option (Channels × Option String × Option String) :=
  let ch := st.1
  match pyListGet UNIT_TYPES a.unit_type_idx with
  | none => none
  | some unit_type =>
    if a.pass_turn = 1 then some st else
    match npIdx dims.1 a.si, npIdx dims.2 a.sj with
    | some si0, some sj0 =>
      let s : Pos := (si0, sj0)
      let cnt := unitGet ch unit_type s
      let m0 := if a.split_army = 1 then cnt / 2 else cnt - 1
      if m0 < 1 then some st else
      let m := min m0 (cnt - 1)
      let stay := cnt - m
      if ch.ownership agent s = false ∨ m < 1 then some st else
      match pyListGet DIRECTIONS a.direction with
      | none => none
      | some dir =>
        let di := a.si + dir.1
        let dj := a.sj + dir.2
        if di < 0 ∨ (dims.1 : Int) ≤ di ∨ dj < 0 ∨ (dims.2 : Int) ≤ dj then some st else
        let d : Pos := (di.toNat, dj.toNat)
        if ch.passable d = false then some st else
        let owner := targetOwner ch agents d
        let ch1 := unitSet ch unit_type s stay
        if owner = agent then
          some (unitSet ch1 unit_type d (unitGet ch1 unit_type d + m), st.2.1, st.2.2)
        else
          let originals := unitsAt ch1 d
          let staged := writeUnits ch1 d (singleUnits unit_type m)
          let res := resolve_combat agent owner (unitsAt staged s) (unitsAt staged d)
          let restored := writeUnits staged d originals
          if res.1 = agent then
            let ch2 := ownSet restored agent d true
            let ch3 := if owner ≠ "neutral" then ownSet ch2 owner d false else ch2
            let ch4 := writeUnits ch3 d res.2
            if agents.contains owner ∧ d = gp owner then
              some (ch4, some agent, some owner)
            else
              some (ch4, st.2.1, st.2.2)
          else
            some (writeUnits restored d res.2, st.2.1, st.2.2)
    | _, _ => none

/-- The sequential `for agent in self.agent_order` loop of `Game.step`:
each agent's mutation is visible to the next agent processed in the same
tick, and an exception anywhere aborts the call. -/
def foldActions (dims : Pos) (agents : List String) (gp : String → Pos)
    (acts : String → Action) :
    List String → Channels × Option String × Option String →
      Option (Channels × Option String × Option String)
  | [], st => some st
  | a :: rest, st =>
    match applyMove dims agents gp st a (acts a) with
    | none => none
    | some st2 => foldActions dims agents gp acts rest st2

/-- Bool-to-rational coercion for the numpy `float_array += bool_mask`
increments of `_global_game_update`. -/
def b2q (b : Bool) : ℚ := if b then 1 else 0

/-- One iteration of the every-50-ticks increment loop
(game.py lines 317-320): every unit-type array gains the owner's mask. -/
def incrOwner (ch : Channels) (o : String) : Channels :=
  { ch with
    cavalry := fun p => ch.cavalry p + b2q (ch.ownership o p)
    infantry := fun p => ch.infantry p + b2q (ch.ownership o p)
    archers := fun p => ch.archers p + b2q (ch.ownership o p)
    siege := fun p => ch.siege p + b2q (ch.ownership o p) }

/-- One iteration of the production loop (game.py lines 325-334), at tick
`time`: infantry gains the `(generals + cities) * ownership[owner]` mask;
cavalry / archers gain the `cities * ownership[owner]` mask on ticks
divisible by 6 / 8 respectively. -/
def prodOwner (time : Nat) (ch : Channels) (o : String) : Channels :=
  let c1 := { ch with
    infantry := fun p => ch.infantry p + b2q ((ch.generals p || ch.cities p) && ch.ownership o p) }
  let c2 := if time % 6 = 0 then
      { c1 with cavalry := fun p => c1.cavalry p + b2q (c1.cities p && c1.ownership o p) }
    else c1
  if time % 8 = 0 then
    { c2 with archers := fun p => c2.archers p + b2q (c2.cities p && c2.ownership o p) }
  else c2

/-- Embedding of `Game._global_game_update` (game.py lines 310-334) on the channel
state, given the current tick and `increment_rate`. -/
def globalUpdate (time incr : Nat) (agents : List String) (ch : Channels) : Channels :=
  let ch1 := if time % incr = 0 then agents.foldl incrOwner ch else ch
  if time % 2 = 0 ∧ 0 < time then agents.foldl (prodOwner time) ch1 else ch1

/-- The end-of-game merge (game.py lines 298-302): the winner's ownership
mask absorbs the loser's, then the loser's mask is cleared. -/
def mergeOwn (ch : Channels) (w l : String) : Channels :=
  let ch1 := { ch with
    ownership := fun a => if a = w then (fun p => ch.ownership w p || ch.ownership l p)
      else ch.ownership a }
  { ch1 with
    ownership := fun a => if a = l then (fun _ => false) else ch1.ownership a }

/-- The game-session state of game.py's `Game`: agent list, current
priority order, channel state, grid dimensions, general positions, tick
counter, `increment_rate`, and the terminal winner / loser fields. -/
structure Game where
  agents : List String
  agent_order : List String
  channels : Channels
  grid_dims : Pos
  general_positions : String → Pos
  time : Nat
  increment_rate : Nat
  winner : Option String
  loser : Option String

/-- The method `Game._global_game_update` as a state transformer. -/
def Game.global_game_update (g : Game) : Game :=
  { g with channels := globalUpdate g.time g.increment_rate g.agents g.channels }

/-- Embedding of `Game.step` (game.py lines 170-308) without the observation / info
construction (which reads but does not change the game state): apply every
agent's action in priority order, reverse the order, advance the tick if
the game was not already finished, then either run the winner / loser
ownership merge (which reads `agents[0]` and `agents[1]`, raising if fewer
than two agents exist) or the global production update.  `none` models an
uncaught Python exception. -/
def Game.step (g : Game) (acts : String → Action) : Option Game :=
  let done_before := g.winner.isSome
  match foldActions g.grid_dims g.agents g.general_positions acts g.agent_order
      (g.channels, g.winner, g.loser) with
  | none => none
  | some (ch, w, l) =>
    let order := g.agent_order.reverse
    let t := if done_before then g.time else g.time + 1
    if w.isSome then
      match g.agents with
      | a0 :: a1 :: _ =>
        let wname := if w = some a0 then a0 else a1
        let lname := if wname = a0 then a1 else a0
        some { g with
          channels := mergeOwn ch wname lname
          agent_order := order
          time := t
          winner := w
          loser := l }
      | _ => none
    else
      some { g with
        channels := globalUpdate t g.increment_rate g.agents ch
        agent_order := order
        time := t
        winner := w
        loser := l }

/-- C9: whenever `step` returns (does not raise), the agent priority order
after the call is the reverse of the order before it
(`self.agent_order = self.agent_order[::-1]`, game.py line 292), in every
branch (finished merge or production update). -/
theorem step_order (g : Game) (acts : String → Action)
    (h : (g.step acts).isSome = true) :
    (g.step acts).map (fun x => x.agent_order) = some g.agent_order.reverse := by
  unfold Game.step at h ⊢
  rcases hf : foldActions g.grid_dims g.agents g.general_positions acts g.agent_order
      (g.channels, g.winner, g.loser) with _ | ⟨ch, w, l⟩ <;>
    simp only [hf] at h ⊢
  · simp at h
  · split
    · split at h
      · split <;> simp_all
      · split at h <;> simp_all
    · simp

/-- A trivial two-agent game used to instantiate the general step theorems. -/
def chPass : Channels where
  cavalry := fun _ => 0
  infantry := fun p => if p = (0, 0) then 1 else if p = (0, 2) then 1 else 0
  archers := fun _ => 0
  siege := fun _ => 0
  generals := fun p => decide (p = (0, 0) ∨ p = (0, 2))
  mountains := fun _ => false
  cities := fun _ => false
  passable := fun _ => true
  ownership := fun a p =>
    if a = "A" then decide (p = (0, 0))
    else if a = "B" then decide (p = (0, 2))
    else if a = "neutral" then decide (p = (0, 1))
    else false

/-- A running (unfinished) two-agent game. -/
def gC9 : Game where
  agents := ["A", "B"]
  agent_order := ["A", "B"]
  channels := chPass
  grid_dims := (1, 3)
  general_positions := fun a => if a = "B" then (0, 2) else (0, 0)
  time := 0
  increment_rate := 50
  winner := none
  loser := none

/-- Both agents pass their turn. -/
def passActs : String → Action := fun _ => ⟨1, 0, 0, 0, 0, 0⟩

/-- Witness for C9: a concrete successful step whose resulting priority
order is the reverse of the previous one. -/
theorem step_order_witness :
    (Game.step gC9 passActs).isSome = true ∧
    (Game.step gC9 passActs).map (fun x => x.agent_order) = some gC9.agent_order.reverse :=
  ⟨by decide, step_order gC9 passActs (by decide)⟩

/-- If every agent in the order passes its turn (with an in-range unit type
index, which Python evaluates before the pass check), the action loop
leaves the threaded state unchanged. -/
theorem foldActions_pass (dims : Pos) (agents : List String) (gp : String → Pos)
    (acts : String → Action) (order : List String)
    (st : Channels × Option String × Option String)
    (h : ∀ a ∈ order, (acts a).pass_turn = 1 ∧
      (pyListGet UNIT_TYPES (acts a).unit_type_idx).isSome = true) :
    foldActions dims agents gp acts order st = some st := by
  induction order with
  | nil => rfl
  | cons a rest ih =>
    obtain ⟨hp, hu⟩ := h a (List.mem_cons_self a rest)
    have happ : applyMove dims agents gp st a (acts a) = some st := by
      unfold applyMove
      rcases hG : pyListGet UNIT_TYPES (acts a).unit_type_idx with _ | t
      · rw [hG] at hu
        simp at hu
      · simp [hp]
    unfold foldActions
    rw [happ]
    exact ih fun x hx => h x (List.mem_cons_of_mem a hx)

/-- C4 (amended): if the session is already finished when `step` is called
and every agent passes, then the tick counter, winner, loser and all unit
arrays are unchanged and no production runs, but the priority order is
still reversed and the winner / loser ownership merge is (re-)applied:
the winner's mask absorbs the loser's and the loser's mask is cleared. -/
theorem step_finished_passthrough (g : Game) (acts : String → Action) (a0 a1 : String)
    (hw : g.winner.isSome = true)
    (hag : g.agents = [a0, a1]) (hne : a0 ≠ a1)
    (hpass : ∀ a ∈ g.agent_order, (acts a).pass_turn = 1 ∧
      (pyListGet UNIT_TYPES (acts a).unit_type_idx).isSome = true) :
    ((g.step acts).map (fun x => (x.time, x.agent_order, x.winner, x.loser)) =
      some (g.time, g.agent_order.reverse, g.winner, g.loser)) ∧
    (∀ p, (g.step acts).map (fun x => unitsAt x.channels p) =
      some (unitsAt g.channels p)) ∧
    (∀ p, (g.step acts).map
        (fun x => x.channels.ownership (if g.winner = some a0 then a0 else a1) p) =
      some (g.channels.ownership (if g.winner = some a0 then a0 else a1) p ||
        g.channels.ownership (if g.winner = some a0 then a1 else a0) p)) ∧
    (∀ p, (g.step acts).map
        (fun x => x.channels.ownership (if g.winner = some a0 then a1 else a0) p) =
      some false) := by
  have hfold := foldActions_pass g.grid_dims g.agents g.general_positions acts
    g.agent_order (g.channels, g.winner, g.loser) hpass
  unfold Game.step
  rw [hfold, hag]
  simp only [hw, if_true]
  by_cases hwa : g.winner = some a0
  · refine ⟨?_, fun p => ?_, fun p => ?_, fun p => ?_⟩ <;>
      simp [hwa, mergeOwn, unitsAt, hne, Ne.symm hne]
  · refine ⟨?_, fun p => ?_, fun p => ?_, fun p => ?_⟩ <;>
      simp [hwa, mergeOwn, unitsAt, hne, Ne.symm hne]

/-- A finished two-agent game (winner `"A"`, loser `"B"`, the loser's mask
already cleared by the finishing tick's merge). -/
def chFin : Channels where
  cavalry := fun _ => 0
  infantry := fun p => if p = (0, 0) then 5 else 0
  archers := fun _ => 0
  siege := fun _ => 0
  generals := fun p => decide (p = (0, 0) ∨ p = (0, 2))
  mountains := fun _ => false
  cities := fun _ => false
  passable := fun _ => true
  ownership := fun a p =>
    if a = "A" then decide (p = (0, 0) ∨ p = (0, 2))
    else if a = "B" then false
    else if a = "neutral" then decide (p = (0, 1))
    else false

/-- A finished game state: `winner = "A"` is set. -/
def gFin : Game where
  agents := ["A", "B"]
  agent_order := ["A", "B"]
  channels := chFin
  grid_dims := (1, 3)
  general_positions := fun a => if a = "B" then (0, 2) else (0, 0)
  time := 7
  increment_rate := 50
  winner := some "A"
  loser := some "B"

/-- Witness for C4 (amended): the pass-through facts instantiated on a
concrete finished game at cell `(0, 0)`. -/
theorem step_finished_passthrough_witness :
    ((Game.step gFin passActs).map (fun x => (x.time, x.agent_order, x.winner, x.loser)) =
      some (gFin.time, gFin.agent_order.reverse, gFin.winner, gFin.loser)) ∧
    ((Game.step gFin passActs).map (fun x => unitsAt x.channels (0, 0)) =
      some (unitsAt gFin.channels (0, 0))) ∧
    ((Game.step gFin passActs).map
        (fun x => x.channels.ownership (if gFin.winner = some "A" then "A" else "B") (0, 0)) =
      some (gFin.channels.ownership (if gFin.winner = some "A" then "A" else "B") (0, 0) ||
        gFin.channels.ownership (if gFin.winner = some "A" then "B" else "A") (0, 0))) ∧
    ((Game.step gFin passActs).map
        (fun x => x.channels.ownership (if gFin.winner = some "A" then "B" else "A") (0, 0)) =
      some false) :=
  have h := step_finished_passthrough gFin passActs "A" "B" (by decide) (by decide)
    (by decide) (by decide)
  ⟨h.1, h.2.1 (0, 0), h.2.2.1 (0, 0), h.2.2.2 (0, 0)⟩

/-- Counterexample for C4 as stated: on an already-finished game with both
agents passing, `step` still changes the game state — the priority order
field is reversed, so the call is not a no-op pass-through. -/
theorem step_finished_not_noop :
    gFin.winner.isSome = true ∧
    passActs "A" = ⟨1, 0, 0, 0, 0, 0⟩ ∧
    passActs "B" = ⟨1, 0, 0, 0, 0, 0⟩ ∧
    gFin.agent_order = ["A", "B"] ∧
    (Game.step gFin passActs).map (fun x => x.agent_order) = some ["B", "A"] ∧
    (["B", "A"] : List String) ≠ ["A", "B"] := by
  refine ⟨by decide, rfl, rfl, by decide, by decide, by decide⟩

def ownedCount (ch : Channels) (L : List String) (p : Pos) : Nat :=
  (L.filter (fun o => ch.ownership o p)).length

theorem ownedCount_cons (ch : Channels) (o : String) (L : List String) (p : Pos) :
    (ownedCount ch (o :: L) p : ℚ) = b2q (ch.ownership o p) + (ownedCount ch L p : ℚ) := by
  unfold ownedCount b2q
  cases h : ch.ownership o p <;> simp [List.filter_cons, h] <;> ring

theorem foldl_incrOwner (L : List String) (ch : Channels) (p : Pos) :
    (L.foldl incrOwner ch).cavalry p = ch.cavalry p + (ownedCount ch L p : ℚ) ∧
    (L.foldl incrOwner ch).infantry p = ch.infantry p + (ownedCount ch L p : ℚ) ∧
    (L.foldl incrOwner ch).archers p = ch.archers p + (ownedCount ch L p : ℚ) ∧
    (L.foldl incrOwner ch).siege p = ch.siege p + (ownedCount ch L p : ℚ) ∧
    (L.foldl incrOwner ch).ownership = ch.ownership ∧
    (L.foldl incrOwner ch).generals = ch.generals ∧
    (L.foldl incrOwner ch).cities = ch.cities := by
  induction L generalizing ch with
  | nil => simp [ownedCount]
  | cons o rest ih =>
    obtain ⟨h1, h2, h3, h4, h5, h6, h7⟩ := ih (incrOwner ch o)
    have hcnt : ownedCount (incrOwner ch o) rest p = ownedCount ch rest p := rfl
    simp only [List.foldl_cons]
    refine ⟨?_, ?_, ?_, ?_, ?_, ?_, ?_⟩
    · rw [h1, hcnt, ownedCount_cons]
      simp only [incrOwner]
      ring
    · rw [h2, hcnt, ownedCount_cons]
      simp only [incrOwner]
      ring
    · rw [h3, hcnt, ownedCount_cons]
      simp only [incrOwner]
      ring
    · rw [h4, hcnt, ownedCount_cons]
      simp only [incrOwner]
      ring
    · exact h5.trans rfl
    · exact h6.trans rfl
    · exact h7.trans rfl



theorem prodOwner_fields (time : Nat) (ch : Channels) (o : String) (p : Pos) :
    (prodOwner time ch o).infantry p =
      ch.infantry p + b2q ((ch.generals p || ch.cities p) && ch.ownership o p) ∧
    (prodOwner time ch o).cavalry p =
      ch.cavalry p + (if time % 6 = 0 then b2q (ch.cities p && ch.ownership o p) else 0) ∧
    (prodOwner time ch o).archers p =
      ch.archers p + (if time % 8 = 0 then b2q (ch.cities p && ch.ownership o p) else 0) ∧
    (prodOwner time ch o).siege p = ch.siege p ∧
    (prodOwner time ch o).ownership = ch.ownership ∧
    (prodOwner time ch o).generals = ch.generals ∧
    (prodOwner time ch o).cities = ch.cities := by
  unfold prodOwner
  by_cases h6 : time % 6 = 0 <;> by_cases h8 : time % 8 = 0 <;> simp [h6, h8]

theorem foldl_prodOwner (time : Nat) (L : List String) (ch : Channels) (p : Pos) :
    (L.foldl (prodOwner time) ch).infantry p =
      ch.infantry p +
        (if (ch.generals p || ch.cities p) = true then (ownedCount ch L p : ℚ) else 0) ∧
    (L.foldl (prodOwner time) ch).cavalry p =
      ch.cavalry p +
        (if time % 6 = 0 ∧ ch.cities p = true then (ownedCount ch L p : ℚ) else 0) ∧
    (L.foldl (prodOwner time) ch).archers p =
      ch.archers p +
        (if time % 8 = 0 ∧ ch.cities p = true then (ownedCount ch L p : ℚ) else 0) ∧
    (L.foldl (prodOwner time) ch).siege p = ch.siege p ∧
    (L.foldl (prodOwner time) ch).ownership = ch.ownership ∧
    (L.foldl (prodOwner time) ch).generals = ch.generals ∧
    (L.foldl (prodOwner time) ch).cities = ch.cities := by
  induction L generalizing ch with
  | nil => simp [ownedCount]
  | cons o rest ih =>
    obtain ⟨f1, f2, f3, f4, f5, f6, f7⟩ := prodOwner_fields time ch o p
    obtain ⟨h1, h2, h3, h4, h5, h6, h7⟩ := ih (prodOwner time ch o)
    have hcnt : ownedCount (prodOwner time ch o) rest p = ownedCount ch rest p := by
      unfold ownedCount
      rw [f5]
    simp only [List.foldl_cons]
    refine ⟨?_, ?_, ?_, h4.trans f4, h5.trans f5, h6.trans f6, h7.trans f7⟩
    · rw [h1, hcnt, f1, f6, f7]
      cases hgc : (ch.generals p || ch.cities p) <;>
        simp [hgc, ownedCount_cons, b2q] <;> ring
    · rw [h2, hcnt, f2, f7]
      by_cases h6c : time % 6 = 0 <;> cases hc : ch.cities p <;>
        simp [h6c, hc, ownedCount_cons, b2q] <;> ring
    · rw [h3, hcnt, f3, f7]
      by_cases h8c : time % 8 = 0 <;> cases hc : ch.cities p <;>
        simp [h8c, hc, ownedCount_cons, b2q] <;> ring


theorem global_game_update_production (g : Game) (p : Pos) :
    ((g.global_game_update).channels.infantry p =
      g.channels.infantry p
      + (if g.time % g.increment_rate = 0 then (ownedCount g.channels g.agents p : ℚ) else 0)
      + (if (g.time % 2 = 0 ∧ 0 < g.time) ∧ (g.channels.generals p || g.channels.cities p) = true
          then (ownedCount g.channels g.agents p : ℚ) else 0)) ∧
    ((g.global_game_update).channels.cavalry p =
      g.channels.cavalry p
      + (if g.time % g.increment_rate = 0 then (ownedCount g.channels g.agents p : ℚ) else 0)
      + (if (g.time % 2 = 0 ∧ 0 < g.time) ∧ g.time % 6 = 0 ∧ g.channels.cities p = true
          then (ownedCount g.channels g.agents p : ℚ) else 0)) ∧
    ((g.global_game_update).channels.archers p =
      g.channels.archers p
      + (if g.time % g.increment_rate = 0 then (ownedCount g.channels g.agents p : ℚ) else 0)
      + (if (g.time % 2 = 0 ∧ 0 < g.time) ∧ g.time % 8 = 0 ∧ g.channels.cities p = true
          then (ownedCount g.channels g.agents p : ℚ) else 0)) ∧
    ((g.global_game_update).channels.siege p =
      g.channels.siege p
      + (if g.time % g.increment_rate = 0 then (ownedCount g.channels g.agents p : ℚ) else 0)) := by
  obtain ⟨i1, i2, i3, i4, i5, i6, i7⟩ := foldl_incrOwner g.agents g.channels p
  have hcnt : ownedCount (List.foldl incrOwner g.channels g.agents) g.agents p
      = ownedCount g.channels g.agents p := by
    unfold ownedCount
    rw [i5]
  unfold Game.global_game_update globalUpdate
  by_cases hi : g.time % g.increment_rate = 0
  · by_cases hp : g.time % 2 = 0 ∧ 0 < g.time
    · obtain ⟨q1, q2, q3, q4, q5, q6, q7⟩ :=
        foldl_prodOwner g.time g.agents (List.foldl incrOwner g.channels g.agents) p
      rw [if_pos hi, if_pos hp]
      refine ⟨?_, ?_, ?_, ?_⟩
      · rw [q1, hcnt, i2, i6, i7]
        simp [hp, hi]
      · rw [q2, hcnt, i1, i7]
        simp [hp, hi]
      · rw [q3, hcnt, i3, i7]
        simp [hp, hi]
      · rw [q4, i4]
        simp [hi]
    · rw [if_pos hi, if_neg hp]
      refine ⟨?_, ?_, ?_, ?_⟩
      · rw [i2]
        simp [hp, hi]
      · rw [i1]
        simp [hp, hi]
      · rw [i3]
        simp [hp, hi]
      · rw [i4]
        simp [hi]
  · by_cases hp : g.time % 2 = 0 ∧ 0 < g.time
    · obtain ⟨q1, q2, q3, q4, q5, q6, q7⟩ := foldl_prodOwner g.time g.agents g.channels p
      rw [if_neg hi, if_pos hp]
      refine ⟨?_, ?_, ?_, ?_⟩
      · rw [q1]
        simp [hp, hi]
      · rw [q2]
        simp [hp, hi]
      · rw [q3]
        simp [hp, hi]
      · rw [q4]
        simp [hi]
    · rw [if_neg hi, if_neg hp]
      simp [hp, hi]


/-- A game at tick 6 whose only production-relevant cell is a general (not
a city) owned by agent `"A"`. -/
def chC5 : Channels where
  cavalry := fun _ => 0
  infantry := fun p => if p = (0, 0) then 5 else if p = (0, 2) then 1 else 0
  archers := fun _ => 0
  siege := fun _ => 0
  generals := fun p => decide (p = (0, 0) ∨ p = (0, 2))
  mountains := fun _ => false
  cities := fun _ => false
  passable := fun _ => true
  ownership := fun a p =>
    if a = "A" then decide (p = (0, 0))
    else if a = "B" then decide (p = (0, 2))
    else if a = "neutral" then decide (p = (0, 1))
    else false

/-- The production counterexample state: `time = 6`. -/
def gC5 : Game where
  agents := ["A", "B"]
  agent_order := ["A", "B"]
  channels := chC5
  grid_dims := (1, 3)
  general_positions := fun a => if a = "B" then (0, 2) else (0, 0)
  time := 6
  increment_rate := 50
  winner := none
  loser := none

/-- Counterexample for C5 as stated: at tick 6 (`6 mod 6 = 0`, even, > 0),
the cell `(0,0)` is a general owned by agent `"A"`, yet the production
update leaves its cavalry count at 0 — cavalry is only produced at city
cells (`city_mask`), not at general-or-city cells as the claim says. -/
theorem production_counterexample :
    gC5.channels.generals (0, 0) = true ∧
    gC5.channels.cities (0, 0) = false ∧
    gC5.channels.ownership "A" (0, 0) = true ∧
    gC5.time % 6 = 0 ∧ gC5.time % 2 = 0 ∧ 0 < gC5.time ∧
    gC5.channels.cavalry (0, 0) = 0 ∧
    (Game.global_game_update gC5).channels.cavalry (0, 0) = 0 := by
  refine ⟨by decide, by decide, by decide, by decide, by decide, by decide, rfl, ?_⟩
  norm_num +decide [Game.global_game_update, globalUpdate, prodOwner, incrOwner, b2q,
    gC5, chC5, List.foldl]

/-- The board of the combat-staging counterexample: agent `"A"` has 5
infantry at `(0,0)`, the neutral cell `(0,1)` holds 3 infantry, agent
`"B"`'s general sits at `(0,2)`. -/
def chC1 : Channels where
  cavalry := fun _ => 0
  infantry := fun p => if p = (0, 0) then 5 else if p = (0, 1) then 3 else if p = (0, 2) then 1 else 0
  archers := fun _ => 0
  siege := fun _ => 0
  generals := fun p => decide (p = (0, 0) ∨ p = (0, 2))
  mountains := fun _ => false
  cities := fun _ => false
  passable := fun _ => true
  ownership := fun a p =>
    if a = "A" then decide (p = (0, 0))
    else if a = "B" then decide (p = (0, 2))
    else if a = "neutral" then decide (p = (0, 1))
    else false

/-- The combat-staging counterexample state. -/
def gC1 : Game where
  agents := ["A", "B"]
  agent_order := ["A", "B"]
  channels := chC1
  grid_dims := (1, 3)
  general_positions := fun a => if a = "B" then (0, 2) else (0, 0)
  time := 0
  increment_rate := 50
  winner := none
  loser := none

/-- Agent `"A"` moves its infantry right (all but one, so 4 units) into the
neutral cell `(0,1)`; agent `"B"` passes. -/
def actsC1 : String → Action := fun a =>
  if a = "A" then ⟨0, 0, 0, 3, 1, 0⟩ else ⟨1, 0, 0, 0, 0, 0⟩

/-- Counterexample for C1 as stated: moving 4 infantry into a neutral cell
holding 3 infantry leaves the destination with 2 infantry — half of the
moving force — whereas invoking the combat resolver with the moving force
`{infantry: 4}` as attacker and the pre-existing `{infantry: 3}` as
defender yields a defender win with 1.5 infantry remaining.  The step code
stages the moving force at the destination and then calls `resolve_combat`
with `attacker_pos = source`, `defender_pos = destination`, so the resolver
sees the post-move source remainder as the attacker and the moving force
itself as the defender; the destination's pre-existing composition never
enters the computation. -/
theorem combat_staging_divergence :
    gC1.channels.infantry (0, 0) = 5 ∧
    gC1.channels.infantry (0, 1) = 3 ∧
    gC1.channels.ownership "neutral" (0, 1) = true ∧
    (Game.step gC1 actsC1).map (fun g => g.channels.infantry (0, 1)) = some 2 ∧
    resolve_combat "A" "neutral" ⟨0, 4, 0, 0⟩ ⟨0, 3, 0, 0⟩ = ("neutral", ⟨0, 3/2, 0, 0⟩) ∧
    (2 : ℚ) ≠ 3 / 2 := by
  have h1 : pyListGet UNIT_TYPES (1 : Int) = some .infantry := by decide
  have h3 : pyListGet DIRECTIONS (3 : Int) = some (0, 1) := by decide
  have h4 : npIdx 1 0 = some 0 := by decide
  have h5 : npIdx 3 0 = some 0 := by decide
  refine ⟨rfl, rfl, by decide, ?_, ?_, by norm_num⟩
  · norm_num +decide [Game.step, gC1, actsC1, chC1, foldActions, applyMove, h1, h3, h4, h5,
      unitGet, unitSet, setAt, unitsAt, writeUnits, singleUnits, ownSet, targetOwner,
      resolve_combat, power, contribution, COMBAT_EFFECTIVENESS, Units.total, Units.scale,
      globalUpdate, incrOwner, prodOwner, b2q, mergeOwn, max_def, min_def, List.find?,
      Prod.mk.injEq]
  · norm_num [resolve_combat, power, contribution, COMBAT_EFFECTIVENESS, Units.total,
      Units.scale, max_def, min_def]


/-- The ownership-exclusivity counterexample board: agent `"A"` holds 3
cavalry, 1 infantry and 10 archers at `(0,0)`; the neutral cell `(0,1)` is
empty; agent `"B"`'s general sits at `(0,2)`.  Every passable cell has
exactly one true ownership bit. -/
def chC2 : Channels where
  cavalry := fun p => if p = (0, 0) then 3 else 0
  infantry := fun p => if p = (0, 0) then 1 else if p = (0, 2) then 1 else 0
  archers := fun p => if p = (0, 0) then 10 else 0
  siege := fun _ => 0
  generals := fun p => decide (p = (0, 0) ∨ p = (0, 2))
  mountains := fun _ => false
  cities := fun _ => false
  passable := fun _ => true
  ownership := fun a p =>
    if a = "A" then decide (p = (0, 0))
    else if a = "B" then decide (p = (0, 2))
    else if a = "neutral" then decide (p = (0, 1))
    else false

/-- The ownership-exclusivity counterexample state. -/
def gC2 : Game where
  agents := ["A", "B"]
  agent_order := ["A", "B"]
  channels := chC2
  grid_dims := (1, 3)
  general_positions := fun a => if a = "B" then (0, 2) else (0, 0)
  time := 0
  increment_rate := 50
  winner := none
  loser := none

/-- Agent `"A"` moves its cavalry right (2 of 3 units) into the neutral
cell `(0,1)`; agent `"B"` passes. -/
def actsC2 : String → Action := fun a =>
  if a = "A" then ⟨0, 0, 0, 3, 0, 0⟩ else ⟨1, 0, 0, 0, 0, 0⟩

/-- Counterexample for C2: starting from a state in which every passable
cell has exactly one true ownership bit, a move that wins combat on a
neutral cell sets the capturing agent's bit at the destination but — due to
the `if target_square_owner != "neutral"` guard — never clears the neutral
bit, leaving the cell owned by both `"neutral"` and `"A"`. -/
theorem ownership_exclusivity_violation :
    (["neutral", "A", "B"].countP (fun a => chC2.ownership a (0, 0)) = 1) ∧
    (["neutral", "A", "B"].countP (fun a => chC2.ownership a (0, 1)) = 1) ∧
    (["neutral", "A", "B"].countP (fun a => chC2.ownership a (0, 2)) = 1) ∧
    chC2.passable (0, 1) = true ∧
    (Game.step gC2 actsC2).map
        (fun g => (g.channels.ownership "neutral" (0, 1), g.channels.ownership "A" (0, 1))) =
      some (true, true) := by
  have h0 : pyListGet UNIT_TYPES (0 : Int) = some .cavalry := by decide
  have h3 : pyListGet DIRECTIONS (3 : Int) = some (0, 1) := by decide
  have h4 : npIdx 1 0 = some 0 := by decide
  have h5 : npIdx 3 0 = some 0 := by decide
  refine ⟨by decide, by decide, by decide, by decide, ?_⟩
  norm_num +decide [Game.step, gC2, actsC2, chC2, foldActions, applyMove, h0, h3, h4, h5,
    unitGet, unitSet, setAt, unitsAt, writeUnits, singleUnits, ownSet, targetOwner,
    resolve_combat, power, contribution, COMBAT_EFFECTIVENESS, Units.total, Units.scale,
    globalUpdate, incrOwner, prodOwner, b2q, mergeOwn, max_def, min_def, List.find?,
    Prod.mk.injEq]

/-- The malformed-action state: a plain running two-agent game. -/
def gC3 : Game where
  agents := ["A", "B"]
  agent_order := ["A", "B"]
  channels := chPass
  grid_dims := (1, 3)
  general_positions := fun a => if a = "B" then (0, 2) else (0, 0)
  time := 0
  increment_rate := 50
  winner := none
  loser := none

/-- Agent `"A"` submits a unit type index of 4 (outside `0..3`); agent
`"B"` passes. -/
def actsC3 : String → Action := fun a =>
  if a = "A" then ⟨0, 0, 0, 0, 4, 0⟩ else ⟨1, 0, 0, 0, 0, 0⟩

/-- Counterexample for C3 as stated: a unit type index of 4 makes
`UNIT_TYPES[unit_type_idx]` raise `IndexError` (the `else: continue`
branch for an invalid unit type is unreachable), so `step` raises
(modelled as `none`) instead of skipping the malformed action. -/
theorem step_malformed_raises :
    (actsC3 "A").unit_type_idx = 4 ∧
    (actsC3 "B").pass_turn = 1 ∧
    Game.step gC3 actsC3 = none :=
  ⟨rfl, rfl, rfl⟩

end Generals
